import Mathlib

/-!
Verification of the codebatcher (`cbatch`) pipeline: a shallow embedding of
`src/codebatcher/cbatch.py` (the ignore-pattern matcher and the
directory-traversal-to-document assembler), together with theorems settling
the specification's claims about it.

Modelling conventions:
* The host is modelled as POSIX: `os.sep` is `'/'` and `os.path.normcase` is
  the identity, so `fnmatch.fnmatch` compares characters as given.
* File-system state is passed explicitly: the ignore file is an
  `Option (List String)` (its lines, or `none` when absent), and the walk
  enumerates `FileEntry` values (relative path plus the outcome of reading).
* Machine behaviour that cannot raise in Python (string handling) is embedded
  as total functions.
-/

namespace Codebatcher

/-! ## Model of Python `fnmatch` glob matching

`fnmatch.fnmatch(name, pat)` translates `pat` to a regular expression:
`*` becomes `.*`, `?` becomes `.`, `[...]` becomes a character class
(with `!` negation, a first `]` taken literally, and an unterminated `[`
degrading to a literal `[`), every other character is literal, and the whole
`name` must match (anchored at both ends, `.` matching every character).
We embed the translation as a list of `GlobItem`s and the regex match as a
direct matcher. -/

/-- One unit of a translated glob pattern. -/
inductive GlobItem where
  | star : GlobItem
  | anyChar : GlobItem
  | lit : Char → GlobItem
  | cls : Bool → List Char → GlobItem
deriving Repr, DecidableEq

/-- Character-class membership: `lo :: '-' :: hi` is a range, every other
character stands for itself (a trailing or leading `-` is literal). -/
def inClass : List Char → Char → Bool
  | [], _ => false
  | lo :: '-' :: hi :: rest, c =>
      if lo ≤ c ∧ c ≤ hi then true else inClass rest c
  | x :: rest, c => if x = c then true else inClass rest c

/-- Scan for the closing `]` of a bracket expression; returns the class body
and the remainder, or `none` when the bracket is unterminated. -/
def scanClass : List Char → Option (List Char × List Char)
  | [] => none
  | ']' :: rest => some ([], rest)
  | c :: rest =>
      match scanClass rest with
      | some (body, r) => some (c :: body, r)
      | none => none

/-- Parse the inside of a bracket expression (the characters after `[`):
an optional leading `!` negates, a `]` right after that is part of the class.
Returns `(negated, body, remainder)`, or `none` when unterminated. -/
def parseBracket : List Char → Option (Bool × List Char × List Char)
  | '!' :: ']' :: t =>
      match scanClass t with
      | some (body, r) => some (true, ']' :: body, r)
      | none => none
  | '!' :: t =>
      match scanClass t with
      | some (body, r) => some (true, body, r)
      | none => none
  | ']' :: t =>
      match scanClass t with
      | some (body, r) => some (false, ']' :: body, r)
      | none => none
  | t =>
      match scanClass t with
      | some (body, r) => some (false, body, r)
      | none => none

/-- Translate a glob pattern to items.  The fuel argument only serves to make
the recursion structural; every step consumes at least one input character, so
`translate` below always supplies enough fuel. -/
def translateAux : Nat → List Char → List GlobItem
  | 0, _ => []
  | _ + 1, [] => []
  | fuel + 1, '*' :: rest => GlobItem.star :: translateAux fuel rest
  | fuel + 1, '?' :: rest => GlobItem.anyChar :: translateAux fuel rest
  | fuel + 1, '[' :: rest =>
      match parseBracket rest with
      | some (neg, body, r) => GlobItem.cls neg body :: translateAux fuel r
      | none => GlobItem.lit '[' :: translateAux fuel rest
  | fuel + 1, c :: rest => GlobItem.lit c :: translateAux fuel rest

/-- Translate a glob pattern (as a character list) to items. -/
def translate (cs : List Char) : List GlobItem :=
  translateAux cs.length cs

/-- Try a matcher on every suffix of the input (used for `*`). -/
def tryTails (f : List Char → Bool) : List Char → Bool
  | [] => f []
  | c :: cs => f (c :: cs) || tryTails f cs

/-- Anchored match of a translated pattern against a string, with the regex
semantics of `fnmatch`: `*` matches any run of characters (separators
included), `?` any single character, classes one character. -/
def matchItems : List GlobItem → List Char → Bool
  | [], [] => true
  | [], _ :: _ => false
  | GlobItem.star :: ps, s => tryTails (matchItems ps) s
  | GlobItem.anyChar :: _, [] => false
  | GlobItem.anyChar :: ps, _ :: cs => matchItems ps cs
  | GlobItem.lit _ :: _, [] => false
  | GlobItem.lit a :: ps, c :: cs => a == c && matchItems ps cs
  | GlobItem.cls _ _ :: _, [] => false
  | GlobItem.cls neg body :: ps, c :: cs =>
      (inClass body c != neg) && matchItems ps cs

/-- `fnmatch.fnmatch` on character lists (POSIX `normcase` is the identity). -/
def fnmatchL (name pat : List Char) : Bool :=
  matchItems (translate pat) name

/-- `fnmatch.fnmatch(name, pat)`. -/
def fnmatch (name pat : String) : Bool :=
  fnmatchL name.toList pat.toList

example : fnmatch "app.log" "*.log" = true := by decide
example : fnmatch "logs/app.log" "*.log" = true := by decide
example : fnmatch "app.logx" "*.log" = false := by decide
example : fnmatch "build" "build" = true := by decide
example : fnmatch "builder" "build" = false := by decide
example : fnmatch "a.txt" "?.txt" = true := by decide
example : fnmatch "ab.txt" "?.txt" = false := by decide
example : fnmatch "ab" "[ab]b" = true := by decide
example : fnmatch "cb" "[ab]b" = false := by decide
example : fnmatch "cb" "[!ab]b" = true := by decide
example : fnmatch "b5" "b[0-9]" = true := by decide
example : fnmatch "[ab" "[ab" = true := by decide
example : fnmatch "x" "[ab" = false := by decide
example : fnmatch "x.sublime-project" "*.sublime-*" = true := by decide

/-! ## Constants of `cbatch.py` -/

def CBATCH_CONFIG_FILE : String := "cbatch.ini"
def CBATCH_IGNORE_FILE : String := ".cbatchignore"
def DEFAULT_OUTPUT_FILE : String := "codebatch.md"

/-- The built-in `DEFAULT_IGNORE_PATTERNS` list, transcribed verbatim
(including the duplicated `"*.log"` entry). -/
def DEFAULT_IGNORE_PATTERNS : List String := [
  "codebatch.md",
  ".gitignore",
  ".git/",
  "*.lock",
  ".env",
  ".env.*",
  CBATCH_CONFIG_FILE,
  CBATCH_IGNORE_FILE,
  "*.pyc",
  "__pycache__/",
  "*.swp",
  ".DS_Store",
  "node_modules/",
  "venv/",
  "env/",
  "*.log",
  "data/",
  "temp/",
  "tmp/",
  "build/",
  "dist/",
  "dist-*/",
  "*.pem",
  "*.key",
  "*.csr",
  "*.crt",
  "*.cer",
  "*.pfx",
  "*.p12",
  "*.sqlite",
  "*.db",
  "*.log",
  ".svelte-kit/",
  ".next/",
  ".nuxt/",
  ".output/",
  ".vitepress/",
  ".astro/",
  ".cache/",
  "out/",
  ".angular/",
  ".remix/",
  ".parcel-cache/",
  ".webpack/",
  ".rollup.cache/",
  ".turbo/",
  ".yarn/",
  "yarn-error.log",
  ".pnpm-store/",
  ".idea/",
  ".vscode/",
  "*.sublime-*",
  ".settings/",
  ".project",
  ".classpath",
  "*.iml"
]

/-! ## String helpers mirroring the Python primitives used by `cbatch.py` -/

/-- Python `str.split(os.sep)` with `os.sep = '/'` (keeps empty fields). -/
def splitOnChar (sep : Char) : List Char → List (List Char)
  | [] => [[]]
  | c :: rest =>
      let r := splitOnChar sep rest
      if c = sep then [] :: r
      else
        match r with
        | [] => [[c]]
        | h :: t => (c :: h) :: t

example : splitOnChar '/' "a/b/c".toList = ["a".toList, "b".toList, "c".toList] := by decide
example : splitOnChar '/' "a/b/".toList = ["a".toList, "b".toList, []] := by decide
example : splitOnChar '/' "".toList = [[]] := by decide

/-- Python `pattern.endswith("/")`. -/
def endsWithSlash (p : String) : Bool :=
  match p.toList.getLast? with
  | some c => c == '/'
  | none => false

/-- Drop leading whitespace characters. -/
def dropLeadingWs : List Char → List Char
  | [] => []
  | c :: cs => if c.isWhitespace then dropLeadingWs cs else c :: cs

/-- Python `str.strip()`: drop whitespace from both ends. -/
def pyStrip (cs : List Char) : List Char :=
  (dropLeadingWs (dropLeadingWs cs.reverse).reverse)

/-- Python `line.strip()` at the `String` level. -/
def stripLine (l : String) : String :=
  String.mk (pyStrip l.toList)

example : stripLine "  build/  " = "build/" := by decide
example : stripLine "x" = "x" := by decide

/-- Python `line.startswith("#")` (a one-character needle: first-char test). -/
def startsWithHash (l : String) : Bool :=
  match l.toList with
  | [] => false
  | c :: _ => c == '#'

/-- The filter `if line and not line.startswith("#")` of
`read_gitignore_patterns`, applied to an already-stripped line. -/
def keepPattern (l : String) : Bool :=
  l != "" && !(startsWithHash l)

/-! ## `read_gitignore_patterns`, `create_default_ignore_file` and the
pattern list `main` builds for an `update` run -/

/-- `read_gitignore_patterns(ignore_file)`: `none` models an absent
`.cbatchignore` (result `[]`); otherwise each line is stripped and kept
unless empty or a `#` comment. -/
def read_gitignore_patterns : Option (List String) → List String
  | none => []
  | some fileLines => (fileLines.map stripLine).filter keepPattern

/-- The lines `create_default_ignore_file` writes into a fresh
`.cbatchignore`: a comment header followed by the given patterns. -/
def create_default_ignore_file_lines (patterns : List String) : List String :=
  "# Default ignore patterns for cbatch" :: patterns

/-- The ignore-pattern list an `update` run passes to the assembler:
`main` calls `read_gitignore_patterns()` and nothing else — the built-in
defaults are not appended here. -/
def main_update_ignore_patterns (ignoreFile : Option (List String)) : List String :=
  read_gitignore_patterns ignoreFile

/-! ## `is_file_ignored` (the Pattern Matcher) -/

/-- The per-pattern test inside the loop of `is_file_ignored`: a pattern with
a trailing `/` is a directory pattern, matched (with the slash stripped)
against every `/`-separated segment of the path; any other pattern is
`fnmatch`ed against the entire relative path. -/
def matchesPattern (file_path : String) (pattern : String) : Bool :=
  if endsWithSlash pattern then
    (splitOnChar '/' file_path.toList).any
      (fun part => fnmatchL part pattern.toList.dropLast)
  else
    fnmatch file_path pattern

/-- `is_file_ignored(file_path, ignore_patterns)`: true when any pattern in
the list matches (the Python loop returns on the first match). -/
def is_file_ignored (file_path : String) (ignore_patterns : List String) : Bool :=
  ignore_patterns.any (fun pattern => matchesPattern file_path pattern)

example : is_file_ignored "build/x.txt" ["build/"] = true := by decide
example : is_file_ignored "src/build/x.txt" ["build/"] = true := by decide
example : is_file_ignored "a/b/build/" ["build/"] = true := by decide
example : is_file_ignored "builder/x.txt" ["build/"] = false := by decide
example : is_file_ignored "app.log" ["*.log"] = true := by decide
example : is_file_ignored "logs/app.log" ["*.log"] = true := by decide
example : is_file_ignored "app.logx" ["*.log"] = false := by decide
example : is_file_ignored "anything" [] = false := by decide

/-! ## `estimate_tokens` -/

/-- Python `text.split()` (no separator): maximal runs of non-whitespace
characters, no empty fields.  The first argument accumulates the current
word reversed. -/
def pySplitWsAux : List Char → List Char → List (List Char)
  | [], cur => if cur = [] then [] else [cur.reverse]
  | c :: cs, cur =>
      if c.isWhitespace then
        if cur = [] then pySplitWsAux cs []
        else cur.reverse :: pySplitWsAux cs []
      else pySplitWsAux cs (c :: cur)

/-- Python `text.split()`. -/
def pySplitWs (cs : List Char) : List (List Char) :=
  pySplitWsAux cs []

/-- `estimate_tokens(text)`: `len(text.split())`. -/
def estimate_tokens (text : String) : Nat :=
  (pySplitWs text.toList).length

example : estimate_tokens "hello  world\n foo" = 3 := by decide
example : estimate_tokens "" = 0 := by decide
example : estimate_tokens "   " = 0 := by decide

/-! ## `output_codebase_to_structured_file` (the Document Assembler)

The walk (`os.walk`) and the per-file reads are modelled by an explicit list
of discovered files in walk order, each carrying the outcome of
`open(file_path).read()`: `Except.ok content`, or `Except.error reason` when
the read raises. -/

/-- A file discovered during the walk: its path relative to the traversal
root, and the outcome of reading it. -/
structure FileEntry where
  relPath : String
  content : Except String String

/-- Python `str.title()` for the general-info keys: the first letter of each
alphabetic run is uppercased, the rest lowercased.  The flag records whether
the previous character was alphabetic. -/
def titleAux : Bool → List Char → List Char
  | _, [] => []
  | prevAlpha, c :: cs =>
      if c.isAlpha then
        (if prevAlpha then c.toLower else c.toUpper) :: titleAux true cs
      else c :: titleAux false cs

/-- Python `key.replace("_", " ")` (single-character replace). -/
def replaceUnderscores : List Char → List Char
  | [] => []
  | c :: cs => (if c = '_' then ' ' else c) :: replaceUnderscores cs

/-- One line of the General Info block:
`f"**{key.replace('_', ' ').title()}**: {value}\n"`. -/
def generalInfoLine (kv : String × String) : String :=
  "**" ++ String.mk (titleAux false (replaceUnderscores kv.1.toList)) ++ "**: "
    ++ kv.2 ++ "\n"

example : generalInfoLine ("codebase_type", "FastAPI backend")
    = "**Codebase Type**: FastAPI backend\n" := by decide

/-- Concatenation of the strings a loop appends to `output_content`. -/
def concatMap (f : α → String) : List α → String
  | [] => ""
  | x :: xs => f x ++ concatMap f xs

/-- The fixed instructional preamble of the document. -/
def instructionsSection : String :=
  "# Instructions #\n\n"
    ++ "This file represents the entire codebase I am working on, it is structured in markdown syntax for readability and to explore codes and my routes relatively easily.\n\n"

/-- The section the assembler appends for one successfully read file:
path heading plus fenced content block. -/
def fileSection (relPath content : String) : String :=
  "### `" ++ relPath ++ "` ###\n" ++ "```\n" ++ content ++ "\n```\n\n"

/-- What one discovered file contributes to `output_content`: nothing when
`is_file_ignored` accepts it (`continue`), nothing when the read raises
(the `except` branch only prints), otherwise its section. -/
def fileContribution (ignore_patterns : List String) (f : FileEntry) : String :=
  if is_file_ignored f.relPath ignore_patterns then ""
  else
    match f.content with
    | Except.ok c => fileSection f.relPath c
    | Except.error _ => ""

/-- The accumulated `output_content` string: preamble, General Info block,
Files header, then one contribution per discovered file in walk order. -/
def output_content (general_info : List (String × String)) (files : List FileEntry)
    (ignore_patterns : List String) : String :=
  instructionsSection
    ++ "## General Info ##\n\n" ++ concatMap generalInfoLine general_info ++ "\n"
    ++ "## Files ##\n\n"
    ++ concatMap (fileContribution ignore_patterns) files

/-- The operator-facing error log of a run: one
`print(f"Error reading file: ... - ...")` entry (path, reason) per
non-ignored file whose read raised. -/
def read_errors (files : List FileEntry) (ignore_patterns : List String) :
    List (String × String) :=
  files.filterMap (fun f =>
    if is_file_ignored f.relPath ignore_patterns then none
    else
      match f.content with
      | Except.ok _ => none
      | Except.error e => some (f.relPath, e))

/-- `output_codebase_to_structured_file`: the document written to the output
file, paired with the token estimate computed afterwards from the very same
accumulated string (and then reported and, when a config exists, stored). -/
def output_codebase_to_structured_file (general_info : List (String × String))
    (files : List FileEntry) (ignore_patterns : List String) : String × Nat :=
  let doc := output_content general_info files ignore_patterns
  (doc, estimate_tokens doc)

/-! ## Spec-side definitions (for refinement claims) -/

/-- Spec-side word counter: the number of whitespace-delimited words of a
string, counted as the number of maximal non-whitespace runs (the flag is
true at the start of the string and after a whitespace character). -/
def countWordStarts : Bool → List Char → Nat
  | _, [] => 0
  | atBoundary, c :: cs =>
      if c.isWhitespace then countWordStarts true cs
      else (if atBoundary then 1 else 0) + countWordStarts false cs

/-- Spec-side definition for C3: the count of whitespace-delimited words of
the entire document string. -/
def whitespace_word_count (s : String) : Nat :=
  countWordStarts true s.toList

/-- Spec-side definition for C8: the document the assembler would produce
with no exclusion at all — every readable discovered file gets a section. -/
def assemble_unfiltered (general_info : List (String × String))
    (files : List FileEntry) : String :=
  instructionsSection
    ++ "## General Info ##\n\n" ++ concatMap generalInfoLine general_info ++ "\n"
    ++ "## Files ##\n\n"
    ++ concatMap (fun f =>
        match f.content with
        | Except.ok c => fileSection f.relPath c
        | Except.error _ => "") files

/-! ## Helper lemmas -/

theorem concatMap_append (f : α → String) (l1 l2 : List α) :
    concatMap f (l1 ++ l2) = concatMap f l1 ++ concatMap f l2 := by
  induction l1 with
  | nil => simp [concatMap]
  | cons x xs ih => simp [concatMap, ih, String.append_assoc]

/-- A path is ignored as soon as one pattern of the list matches it. -/
theorem is_file_ignored_of_mem {path p : String} {L : List String}
    (hp : p ∈ L) (hm : matchesPattern path p = true) :
    is_file_ignored path L = true := by
  simp only [is_file_ignored, List.any_eq_true]
  exact ⟨p, hp, hm⟩

/-- Conversely, an ignored path is matched by some pattern of the list. -/
theorem exists_pattern_of_ignored {path : String} {L : List String}
    (h : is_file_ignored path L = true) :
    ∃ p, p ∈ L ∧ matchesPattern path p = true := by
  simpa only [is_file_ignored, List.any_eq_true] using h

/-- Files whose path is ignored contribute nothing, so dropping them from the
walk leaves the assembled document unchanged. -/
theorem output_content_filter (gi : List (String × String)) (L : List String)
    (P : FileEntry → Bool) (files : List FileEntry)
    (h : ∀ f ∈ files, P f = false → is_file_ignored f.relPath L = true) :
    output_content gi files L = output_content gi (files.filter P) L := by
  simp only [output_content]
  have : concatMap (fileContribution L) files
      = concatMap (fileContribution L) (files.filter P) := by
    induction files with
    | nil => rfl
    | cons f fs ih =>
        have hfs : ∀ g ∈ fs, P g = false → is_file_ignored g.relPath L = true :=
          fun g hg => h g (List.mem_cons_of_mem _ hg)
        cases hP : P f with
        | true => simp [List.filter_cons, hP, concatMap, ih hfs]
        | false =>
            have hig := h f (List.mem_cons_self _ _) hP
            simp [List.filter_cons, hP, concatMap, ih hfs, fileContribution, hig]
  rw [this]

/-- A translated pattern consisting only of literal characters matches
exactly the literal string. -/
theorem matchItems_lit_list (l : List Char) :
    ∀ s : List Char, matchItems (l.map GlobItem.lit) s = true ↔ s = l := by
  induction l with
  | nil => intro s; cases s <;> simp [matchItems]
  | cons a l ih =>
      intro s
      cases s with
      | nil => simp [matchItems]
      | cons c cs =>
          simp only [List.map_cons, matchItems, Bool.and_eq_true, beq_iff_eq,
            List.cons.injEq, ih]
          constructor
          · rintro ⟨h1, h2⟩; exact ⟨h1.symm, h2⟩
          · rintro ⟨h1, h2⟩; exact ⟨h1.symm, h2⟩

/-- `splitOnChar` never returns the empty list. -/
theorem splitOnChar_ne_nil (sep : Char) (cs : List Char) :
    splitOnChar sep cs ≠ [] := by
  induction cs with
  | nil => simp [splitOnChar]
  | cons c rest ih =>
      simp only [splitOnChar]
      split
      · simp
      · cases h : splitOnChar sep rest with
        | nil => exact absurd h ih
        | cons hd tl => simp [h]

/-- The final `/`-separated segment of a relative path (the file name). -/
def finalSegment (path : String) : List Char :=
  (splitOnChar '/' path.toList).getLast (splitOnChar_ne_nil _ _)

example : finalSegment "a/b/build" = "build".toList := by decide
example : finalSegment "build" = "build".toList := by decide

/-- The word count produced by `pySplitWsAux` agrees with the boundary-based
spec-side counter; the accumulator adds one pending word when non-empty. -/
theorem pySplitWsAux_length (cs : List Char) :
    ∀ cur : List Char, (pySplitWsAux cs cur).length
      = countWordStarts (cur = []) cs + (if cur = [] then 0 else 1) := by
  induction cs with
  | nil =>
      intro cur
      by_cases h : cur = [] <;> simp [pySplitWsAux, countWordStarts, h]
  | cons c cs ih =>
      intro cur
      by_cases hws : c.isWhitespace
      · by_cases h : cur = [] <;>
          simp [pySplitWsAux, countWordStarts, h, hws, ih, Nat.add_comm]
      · by_cases h : cur = [] <;>
          simp [pySplitWsAux, countWordStarts, h, hws, ih, Nat.add_comm]

/-- `estimate_tokens` equals the spec-side whitespace word count. -/
theorem estimate_tokens_eq_word_count (text : String) :
    estimate_tokens text = whitespace_word_count text := by
  simp [estimate_tokens, pySplitWs, whitespace_word_count, pySplitWsAux_length]

/-! ## Claim theorems -/

/-- C3: for every run of the Document Assembler, the token estimate that is
reported and stored equals the count of whitespace-delimited words of the
exact final document string (preamble plus general-info header plus all file
sections), computed from the same string that is written to the output
file. -/
theorem C3_estimate_is_word_count_of_written_document
    (general_info : List (String × String)) (files : List FileEntry)
    (ignore_patterns : List String) :
    (output_codebase_to_structured_file general_info files ignore_patterns).2
      = whitespace_word_count
          (output_codebase_to_structured_file general_info files ignore_patterns).1 :=
  estimate_tokens_eq_word_count _

/-- C4: for every pattern list containing the directory pattern `"build/"`,
the Pattern Matcher excludes `"build/x.txt"`, `"src/build/x.txt"` and
`"a/b/build/"` (its trailing separator is stripped and any path segment may
match it), and excludes `"builder/x.txt"` only if some other pattern of the
list matches that path. -/
theorem C4_directory_pattern_build (L : List String) (h : "build/" ∈ L) :
    is_file_ignored "build/x.txt" L = true ∧
    is_file_ignored "src/build/x.txt" L = true ∧
    is_file_ignored "a/b/build/" L = true ∧
    (is_file_ignored "builder/x.txt" L = true →
      ∃ p, p ∈ L ∧ p ≠ "build/" ∧ matchesPattern "builder/x.txt" p = true) := by
  refine ⟨is_file_ignored_of_mem h (by decide), is_file_ignored_of_mem h (by decide),
    is_file_ignored_of_mem h (by decide), ?_⟩
  intro hb
  obtain ⟨p, hpL, hpm⟩ := exists_pattern_of_ignored hb
  refine ⟨p, hpL, ?_, hpm⟩
  intro heq
  rw [heq] at hpm
  exact absurd hpm (by decide)

/-- C4 witness: the pattern list `["build/"]` at the concrete paths of the
claim. -/
theorem C4_witness :
    is_file_ignored "build/x.txt" ["build/"] = true ∧
    is_file_ignored "src/build/x.txt" ["build/"] = true ∧
    is_file_ignored "a/b/build/" ["build/"] = true ∧
    (is_file_ignored "builder/x.txt" ["build/"] = true →
      ∃ p, p ∈ ["build/"] ∧ p ≠ "build/" ∧ matchesPattern "builder/x.txt" p = true) :=
  C4_directory_pattern_build ["build/"] (by decide)

/-- C5: for every pattern list containing the file pattern `"*.log"`, the
Pattern Matcher excludes `"app.log"` and `"logs/app.log"` (the entire
relative path is glob-matched, `*` crossing path separators), and excludes
`"app.logx"` only if some other pattern of the list matches that path. -/
theorem C5_file_pattern_star_log (L : List String) (h : "*.log" ∈ L) :
    is_file_ignored "app.log" L = true ∧
    is_file_ignored "logs/app.log" L = true ∧
    (is_file_ignored "app.logx" L = true →
      ∃ p, p ∈ L ∧ p ≠ "*.log" ∧ matchesPattern "app.logx" p = true) := by
  refine ⟨is_file_ignored_of_mem h (by decide), is_file_ignored_of_mem h (by decide), ?_⟩
  intro hb
  obtain ⟨p, hpL, hpm⟩ := exists_pattern_of_ignored hb
  refine ⟨p, hpL, ?_, hpm⟩
  intro heq
  rw [heq] at hpm
  exact absurd hpm (by decide)

/-- C5 witness: the pattern list `["*.log"]` at the concrete paths of the
claim. -/
theorem C5_witness :
    is_file_ignored "app.log" ["*.log"] = true ∧
    is_file_ignored "logs/app.log" ["*.log"] = true ∧
    (is_file_ignored "app.logx" ["*.log"] = true →
      ∃ p, p ∈ ["*.log"] ∧ p ≠ "*.log" ∧ matchesPattern "app.logx" p = true) :=
  C5_file_pattern_star_log ["*.log"] (by decide)

/-- C9: a directory pattern also excludes regular files whose name matches
it: whenever some pattern of the list ends in `/` and the final segment of
the relative path glob-matches that pattern with the trailing separator
stripped, `is_file_ignored` returns true — segment matching does not
distinguish directory segments from the final file-name segment. -/
theorem C9_dir_pattern_matches_plain_file (path pattern : String) (L : List String)
    (h1 : pattern ∈ L) (h2 : endsWithSlash pattern = true)
    (h3 : fnmatchL (finalSegment path) pattern.toList.dropLast = true) :
    is_file_ignored path L = true := by
  apply is_file_ignored_of_mem h1
  simp only [matchesPattern, h2, if_true, List.any_eq_true]
  exact ⟨finalSegment path, List.getLast_mem _, h3⟩

/-- C9 witness: a plain file named `build` is excluded by the directory
pattern `"build/"`. -/
theorem C9_witness : is_file_ignored "build" ["build/"] = true :=
  C9_dir_pattern_matches_plain_file "build" "build/" ["build/"]
    (by decide) (by decide) (by decide)

/-- C10: the exclusion check is monotone in the pattern list: a path excluded
under `S` stays excluded under `S ++ T` and under `T ++ S`. -/
theorem C10_exclusion_monotone (path : String) (S T : List String)
    (h : is_file_ignored path S = true) :
    is_file_ignored path (S ++ T) = true ∧ is_file_ignored path (T ++ S) = true := by
  unfold is_file_ignored at h ⊢
  constructor <;> simp [List.any_append, h]

/-- C10 witness: `"app.log"`, excluded under `["*.log"]`, stays excluded
after appending or prepending `["build/"]`. -/
theorem C10_witness :
    is_file_ignored "app.log" (["*.log"] ++ ["build/"]) = true ∧
    is_file_ignored "app.log" (["build/"] ++ ["*.log"]) = true :=
  C10_exclusion_monotone "app.log" ["*.log"] ["build/"] (by decide)

/-- Lines that are already stripped, non-empty and not comments pass through
`read_gitignore_patterns`' strip-and-filter unchanged. -/
theorem strip_filter_fixed (user : List String)
    (h : ∀ l ∈ user, stripLine l = l ∧ keepPattern l = true) :
    (user.map stripLine).filter keepPattern = user := by
  induction user with
  | nil => rfl
  | cons x xs ih =>
      have hx := h x (List.mem_cons_self _ _)
      have hxs := ih (fun l hl => h l (List.mem_cons_of_mem _ hl))
      simp [List.filter_cons, hx.1, hx.2, hxs]

/-- C1 counterexample: the claim says the working list of an update run is
the built-in defaults with the user patterns appended; but with the ignore
file absent (user patterns `[]`) the run's working list is `[]`, not
`DEFAULT_IGNORE_PATTERNS ++ []` — `main` passes only
`read_gitignore_patterns()` to the assembler and never appends the
defaults. -/
theorem C1_counterexample :
    main_update_ignore_patterns none
      ≠ DEFAULT_IGNORE_PATTERNS ++ read_gitignore_patterns none := by
  decide

/-- C1 (amended): the working list of an update run is exactly what the user
ignore file contains; the built-in defaults enter only because `init` seeds
the file with them.  With the seeded file intact and user override lines
appended to it, the working list is the default set with the user patterns
appended; but the defaults can be removed by editing the file. -/
theorem C1_seeded_file_gives_defaults_then_user (user : List String)
    (h : ∀ l ∈ user, stripLine l = l ∧ keepPattern l = true) :
    main_update_ignore_patterns
        (some (create_default_ignore_file_lines DEFAULT_IGNORE_PATTERNS ++ user))
      = DEFAULT_IGNORE_PATTERNS ++ user := by
  show ((create_default_ignore_file_lines DEFAULT_IGNORE_PATTERNS ++ user).map
      stripLine).filter keepPattern = DEFAULT_IGNORE_PATTERNS ++ user
  rw [List.map_append, List.filter_append, strip_filter_fixed user h]
  congr 1

/-- C1 witness: one user override line appended to the seeded file. -/
theorem C1_witness :
    main_update_ignore_patterns
        (some (create_default_ignore_file_lines DEFAULT_IGNORE_PATTERNS ++ ["*.txt"]))
      = DEFAULT_IGNORE_PATTERNS ++ ["*.txt"] :=
  C1_seeded_file_gives_defaults_then_user ["*.txt"] (by decide)

/-- C2 counterexample: the claim says the assembled document never contains
a section for the output file and that it is always excluded via the built-in
defaults; but in an update run with the ignore file absent the working list
is empty, `codebatch.md` is not excluded, and the document of a walk that
finds the prior output file consists of the headers followed by a section
for `codebatch.md` itself. -/
theorem C2_counterexample :
    is_file_ignored "codebatch.md" (main_update_ignore_patterns none) = false ∧
    output_content [] [⟨"codebatch.md", Except.ok "old output"⟩]
        (main_update_ignore_patterns none)
      = instructionsSection ++ "## General Info ##\n\n" ++ "\n" ++ "## Files ##\n\n"
          ++ fileSection "codebatch.md" "old output" := by
  constructor
  · rfl
  · rfl

/-- C2 (amended): whenever the working pattern list still contains the three
built-in default patterns `"codebatch.md"`, `"cbatch.ini"` and
`".cbatchignore"` (as it does after `init` seeds the ignore file and the
defaults are left in place) and the run uses the default output name, each of
those paths is excluded and the assembled document contains no section for
them: dropping them from the walk leaves the document unchanged. -/
theorem C2_defaults_exclude_tool_files (L : List String)
    (gi : List (String × String)) (files : List FileEntry)
    (h1 : "codebatch.md" ∈ L) (h2 : "cbatch.ini" ∈ L) (h3 : ".cbatchignore" ∈ L) :
    is_file_ignored "codebatch.md" L = true ∧
    is_file_ignored "cbatch.ini" L = true ∧
    is_file_ignored ".cbatchignore" L = true ∧
    output_content gi files L
      = output_content gi
          (files.filter (fun f => !(f.relPath == "codebatch.md"
            || f.relPath == "cbatch.ini" || f.relPath == ".cbatchignore"))) L := by
  refine ⟨is_file_ignored_of_mem h1 (by decide), is_file_ignored_of_mem h2 (by decide),
    is_file_ignored_of_mem h3 (by decide), ?_⟩
  apply output_content_filter
  intro f hf hPf
  by_cases e1 : f.relPath = "codebatch.md"
  · rw [e1]; exact is_file_ignored_of_mem h1 (by decide)
  by_cases e2 : f.relPath = "cbatch.ini"
  · rw [e2]; exact is_file_ignored_of_mem h2 (by decide)
  by_cases e3 : f.relPath = ".cbatchignore"
  · rw [e3]; exact is_file_ignored_of_mem h3 (by decide)
  exact absurd hPf (by simp [e1, e2, e3])

/-- C2 witness: the full default pattern set, a walk finding an ordinary
file, a prior output file and the config file. -/
theorem C2_witness :
    is_file_ignored "codebatch.md" DEFAULT_IGNORE_PATTERNS = true ∧
    is_file_ignored "cbatch.ini" DEFAULT_IGNORE_PATTERNS = true ∧
    is_file_ignored ".cbatchignore" DEFAULT_IGNORE_PATTERNS = true ∧
    output_content [("codebase_type", "cli tool")]
        [⟨"a.txt", Except.ok "hello world"⟩, ⟨"codebatch.md", Except.ok "old"⟩,
          ⟨"cbatch.ini", Except.ok "[General]"⟩]
        DEFAULT_IGNORE_PATTERNS
      = output_content [("codebase_type", "cli tool")]
          ([⟨"a.txt", Except.ok "hello world"⟩, ⟨"codebatch.md", Except.ok "old"⟩,
            ⟨"cbatch.ini", Except.ok "[General]"⟩].filter
            (fun f => !(f.relPath == "codebatch.md" || f.relPath == "cbatch.ini"
              || f.relPath == ".cbatchignore"))) DEFAULT_IGNORE_PATTERNS :=
  C2_defaults_exclude_tool_files DEFAULT_IGNORE_PATTERNS _ _
    (by decide) (by decide) (by decide)

/-- C6: if reading a discovered, non-excluded file fails, the run continues:
the document is exactly the one of the same walk without that file (no
partial or placeholder section for it, all other surviving sections present),
and the failure's path and reason appear in the operator-facing error log. -/
theorem C6_read_failure_skipped_and_logged (gi : List (String × String))
    (L : List String) (pre post : List FileEntry) (path err : String)
    (h : is_file_ignored path L = false) :
    output_content gi (pre ++ FileEntry.mk path (Except.error err) :: post) L
      = output_content gi (pre ++ post) L ∧
    (path, err) ∈ read_errors (pre ++ FileEntry.mk path (Except.error err) :: post) L := by
  constructor
  · simp only [output_content, concatMap_append, concatMap]
    have hb : fileContribution L (FileEntry.mk path (Except.error err)) = "" := by
      simp [fileContribution]
    rw [hb]
    rfl
  · simp only [read_errors, List.mem_filterMap]
    refine ⟨FileEntry.mk path (Except.error err), by simp, ?_⟩
    simp [h]

/-- C6 witness: a permission failure on `secret.bin` between two readable
files, with the working pattern list `["*.log"]`. -/
theorem C6_witness :
    output_content []
        ([⟨"a.txt", Except.ok "hello"⟩]
          ++ FileEntry.mk "secret.bin" (Except.error "Permission denied")
            :: [⟨"b.txt", Except.ok "world"⟩]) ["*.log"]
      = output_content [] ([⟨"a.txt", Except.ok "hello"⟩]
          ++ [⟨"b.txt", Except.ok "world"⟩]) ["*.log"] ∧
    ("secret.bin", "Permission denied") ∈ read_errors
        ([⟨"a.txt", Except.ok "hello"⟩]
          ++ FileEntry.mk "secret.bin" (Except.error "Permission denied")
            :: [⟨"b.txt", Except.ok "world"⟩]) ["*.log"] :=
  C6_read_failure_skipped_and_logged [] ["*.log"]
    [⟨"a.txt", Except.ok "hello"⟩] [⟨"b.txt", Except.ok "world"⟩]
    "secret.bin" "Permission denied" (by decide)

/-- C7 counterexample: the claim says a malformed pattern (unterminated
bracket expression) degrades to never matching any path; but the malformed
pattern `"[ab"` does match the path `"[ab"` — the unterminated `[` is
treated as a literal character, not as a never-matching pattern. -/
theorem C7_counterexample : is_file_ignored "[ab" ["[ab"] = true := by decide

/-- C7 (amended): the exclusion check is total (the embedding is a total
function and the underlying translation handles every pattern, so no
exception is raised); a malformed pattern with an unterminated bracket
expression degrades to reading the `[` as a literal character — the pattern
`"[ab"` excludes exactly the path `"[ab"` — rather than aborting the run or
never matching. -/
theorem C7_malformed_pattern_literal (path : String) :
    is_file_ignored path ["[ab"] = true ↔ path = "[ab" := by
  have h1 : is_file_ignored path ["[ab"]
      = (matchItems (List.map GlobItem.lit ['[', 'a', 'b']) path.toList || false) := rfl
  rw [h1, Bool.or_false, matchItems_lit_list]
  constructor
  · intro h; exact String.ext h
  · intro h; subst h; rfl

/-- C7 witness: the amended characterization applied at the path `"[ab"`. -/
theorem C7_witness : is_file_ignored "[ab" ["[ab"] = true :=
  (C7_malformed_pattern_literal "[ab").mpr rfl

/-- C8: if the user ignore file is absent, pattern loading returns the empty
list, the exclusion check then rejects nothing, and the run's document is the
unfiltered one — every readable discovered file, including any prior output
file found under the root, gets a section. -/
theorem C8_absent_ignore_file_excludes_nothing :
    read_gitignore_patterns none = [] ∧
    (∀ path, is_file_ignored path [] = false) ∧
    (∀ (gi : List (String × String)) (files : List FileEntry),
      output_content gi files (read_gitignore_patterns none)
        = assemble_unfiltered gi files) := by
  refine ⟨rfl, fun _ => rfl, fun gi files => ?_⟩
  have hfun : fileContribution (read_gitignore_patterns none)
      = (fun f : FileEntry =>
          match f.content with
          | Except.ok c => fileSection f.relPath c
          | Except.error _ => "") := funext (fun f => rfl)
  simp only [output_content, assemble_unfiltered, hfun]

end Codebatcher
